import Mathlib

/-!
Product CRUD service (`main.go`): embedding and verification.

The service exposes four handlers (`CreateProduct`, `GetProduct`,
`UpdateProduct`, `DeleteProduct`) over one `products` table.  The handlers are
embedded as pure functions that thread the state of the store explicitly.  The
store itself (a PostgreSQL database reached through `database/sql`) is external
to `main.go`; the handlers are therefore written against a `Gateway` record
holding the four SQL statements the source issues, and a concrete table
(`tableGateway`) models the relational store for the properties that speak
about stored rows.
-/

set_option autoImplicit false

namespace ProductService

/-! ## Data model -/

deriving instance DecidableEq for Except

/-- The `Product` struct of `main.go` (Go `int` fields are integers; no
arithmetic is ever performed on them by the handlers). -/
structure Product where
  ID : Int
  Name : String
  Price : Int
  Category : String
deriving DecidableEq, Repr

/-- A `*fiber.Error`: a status code and a message. -/
structure FiberError where
  Code : Nat
  Message : String
deriving DecidableEq, Repr

def StatusOK : Nat := 200
def StatusCreated : Nat := 201
def StatusNoContent : Nat := 204
def StatusBadRequest : Nat := 400
def StatusNotFound : Nat := 404
def StatusInternalServerError : Nat := 500

/-- The constructor `fiber.NewError(code, message)`. -/
def NewError (code : Nat) (message : String) : FiberError := ⟨code, message⟩

/-- A Go `error` value as the error handler sees it: either a `*fiber.Error`
or some other error. -/
inductive GoError where
  | fiber (e : FiberError)
  | other (text : String)
deriving DecidableEq, Repr

/-! ## Validation -/

/-- The method `(p *Product) validate()`.  The receiver is a pointer, so the
pointee is threaded through: the first component is the `Product` after the
call, the second the returned error (`none` is `nil`). -/
def validate (p : Product) : Product × Option FiberError :=
  if p.Name = "" then
    (p, some (NewError StatusBadRequest "Name is required"))
  else if p.Price ≤ 0 then
    (p, some (NewError StatusBadRequest "Price must be greater than 0"))
  else if p.Category = "" then
    (p, some (NewError StatusBadRequest "Category is required"))
  else
    (p, none)

/-- The validation failure of the specification: a client error (status 400)
carrying the message of the violated rule. -/
def ValidationError (message : String) : FiberError := ⟨400, message⟩

/-- The validator as the specification words it: three rules checked in order,
the first failing rule decides the error, and success when all three hold. -/
def validateSpec (p : Product) : Option FiberError :=
  if p.Name ≠ "" then
    if p.Price > 0 then
      if p.Category ≠ "" then none
      else some (ValidationError "Category is required")
    else some (ValidationError "Price must be greater than 0")
  else some (ValidationError "Name is required")

/-! ## Requests and responses -/

/-- What a handler reads from `*fiber.Ctx`: the route parameter `id`
(`c.Params("id")`, a string) and the outcome of `c.BodyParser` on a fresh
`Product` (`none` when the body does not parse). -/
structure Ctx where
  ParamsId : String
  Body : Option Product
deriving DecidableEq, Repr

/-- The body a handler or the error handler writes. -/
inductive Payload where
  | empty
  | text (s : String)
  | json (p : Product)
  | errorJson (message : String)
deriving DecidableEq, Repr

/-- The response written to the client: status code and body. -/
structure Response where
  Status : Nat
  Body : Payload
deriving DecidableEq, Repr

/-- The call `c.Status(code).JSON(p)`; plain `c.JSON(p)` is the case
`code = StatusOK`, the status of a fresh response. -/
def JSON (code : Nat) (p : Product) : Response := ⟨code, .json p⟩

/-- The status texts of `utils.StatusMessage` for the codes this program
uses; a code without a text gives the empty string. -/
def StatusMessage (code : Nat) : String :=
  if code = 200 then "OK"
  else if code = 201 then "Created"
  else if code = 204 then "No Content"
  else if code = 400 then "Bad Request"
  else if code = 404 then "Not Found"
  else if code = 500 then "Internal Server Error"
  else ""

/-- Whether a response with this status goes out without a body: the
informational codes, 204 and 304. -/
def bodyless (code : Nat) : Bool := code < 200 || code == 204 || code == 304

/-- The call `c.SendStatus(code)` on a response that has no body yet: the
status is set and the status text becomes the body, which a bodyless status
does not transmit. -/
def SendStatus (code : Nat) : Response :=
  ⟨code, if bodyless code then .empty else .text (StatusMessage code)⟩

/-- The `ErrorHandler` closure configured in `main`: a `*fiber.Error` supplies
its own code and message, anything else is a 500 with a fixed message; the
body is the JSON object with the single key `error`. -/
def ErrorHandler (err : GoError) : Response :=
  match err with
  | .fiber e => ⟨e.Code, .errorJson e.Message⟩
  | .other _ => ⟨StatusInternalServerError, .errorJson "Internal Server Error"⟩

/-! ## The store as seen by the handlers -/

/-- Errors of `database/sql` the handlers distinguish: `sql.ErrNoRows` and
every other failure. -/
inductive SqlError where
  | ErrNoRows
  | failure
deriving DecidableEq, Repr

/-- A `sql.Result` as the handlers use it: `RowsAffected()` either yields a
count or fails. -/
inductive SqlResult where
  | affected (n : Int)
  | countFailed
deriving DecidableEq, Repr

/-- The four statements `main.go` sends through the global `db` handle, each
as a transition on the state `σ` of the store.
* `insertReturningId name price category`:
  `INSERT INTO products (name, price, category) VALUES ($1, $2, $3) RETURNING id`
  followed by `Scan(&p.ID)`;
* `selectById id`:
  `SELECT id, name, price, category FROM products WHERE id = $1` followed by
  `Scan` of the four columns;
* `updateById name price category id`:
  `UPDATE products SET name = $1, price = $2, category = $3 WHERE id = $4`;
* `deleteById id`: `DELETE FROM products WHERE id = $1`.
The `id` argument is the route parameter, passed as a string. -/
structure Gateway (σ : Type) where
  insertReturningId : String → Int → String → σ → Except SqlError Int × σ
  selectById : String → σ → Except SqlError Product × σ
  updateById : String → Int → String → String → σ → Except SqlError SqlResult × σ
  deleteById : String → σ → Except SqlError SqlResult × σ

/-! ## `strconv.Atoi` -/

def maxInt64 : Int := 9223372036854775807
def minInt64 : Int := -9223372036854775808
def maxUint64 : Nat := 18446744073709551615

/-- The error kinds of `strconv`. -/
inductive NumError where
  | ErrSyntax
  | ErrRange
deriving DecidableEq, Repr

/-- The digit loop of the fast path of `strconv.Atoi`: `ch -= '0'` on a byte
wraps around, so the test `ch > 9` fails exactly for the bytes `0` to `9`;
every other byte ends the loop with a syntax error (`none`).  Strings on this
path have fewer than 19 bytes, so `n*10 + int(ch)` stays inside `int`. -/
def atoiFastLoop : List Char → Nat → Option Nat
  | [], n => some n
  | ch :: rest, n =>
    if '0' ≤ ch ∧ ch ≤ '9' then atoiFastLoop rest (n * 10 + (ch.toNat - '0'.toNat))
    else none

/-- The digit loop of `strconv.ParseUint(s, 10, 64)` on the unsigned 64-bit
accumulator `n`.  A byte that is not a decimal digit is a syntax error with
value 0 (a letter is a digit value of at least 10, which base 10 rejects).
For a digit, `n >= cutoff` with `cutoff = maxUint64/10 + 1` means `n*10`
overflows, and `n1 < n` after `n1 := n + d` means the addition wrapped; both
return `maxUint64` with a range error at once, without reading further. -/
def parseUintLoop : List Char → Nat → Nat × Option NumError
  | [], n => (n, none)
  | c :: rest, n =>
    if '0' ≤ c ∧ c ≤ '9' then
      let d := c.toNat - '0'.toNat
      if n ≥ maxUint64 / 10 + 1 then (maxUint64, some .ErrRange)
      else
        let n10 := (n * 10) % 18446744073709551616
        let n1 := (n10 + d) % 18446744073709551616
        if n1 < n10 ∨ n1 > maxUint64 then (maxUint64, some .ErrRange)
        else parseUintLoop rest n1
    else (0, some .ErrSyntax)

/-- The function `strconv.ParseUint(s, 10, 64)`: the empty string is a syntax
error, otherwise the digit loop runs from 0. -/
def ParseUint (s : List Char) : Nat × Option NumError :=
  match s with
  | [] => (0, some .ErrSyntax)
  | _ => parseUintLoop s 0

/-- The function `strconv.ParseInt(s, 10, 0)` with a 64-bit `int`: a leading
sign is picked off, the rest is parsed unsigned; a syntax error gives 0, and
an unsigned value beyond the signed range (also one `ParseUint` reported as
out of range) gives the nearest bound with a range error. -/
def ParseInt (s : List Char) : Int × Option NumError :=
  match s with
  | [] => (0, some .ErrSyntax)
  | c :: rest =>
    let neg : Bool := decide (c = '-')
    let digits := if c = '+' then rest else if c = '-' then rest else c :: rest
    match ParseUint digits with
    | (_, some .ErrSyntax) => (0, some .ErrSyntax)
    | (un, _) =>
      let cutoff : Nat := 9223372036854775808
      if neg = false ∧ un ≥ cutoff then ((cutoff : Int) - 1, some .ErrRange)
      else if neg = true ∧ un > cutoff then (-(cutoff : Int), some .ErrRange)
      else (if neg = true then -(un : Int) else (un : Int), none)

/-- The standard-library function `strconv.Atoi` with a 64-bit `int`.  A
string of 1 to 18 bytes takes the fast path: optional sign, then digits only.
Every other string goes through `ParseInt(s, 10, 0)`.  The scan is over
characters: a character outside ASCII is encoded by bytes that are neither a
sign nor a digit, so it ends the scan where its first byte would. -/
def Atoi (s : String) : Int × Option NumError :=
  let sLen := s.utf8ByteSize
  if 0 < sLen ∧ sLen < 19 then
    match s.toList with
    | [] => (0, some .ErrSyntax)
    | c :: rest =>
      if (c = '-' ∨ c = '+') ∧ rest = [] then (0, some .ErrSyntax)
      else
        let digits := if c = '-' ∨ c = '+' then rest else c :: rest
        match atoiFastLoop digits 0 with
        | none => (0, some .ErrSyntax)
        | some n => (if c = '-' then -(n : Int) else (n : Int), none)
  else
    ParseInt s.toList

/-! ## The integer value of a route parameter

What a decimal numeral denotes, stated without reference to how `strconv`
scans it. -/

/-- Whether a character is one of the decimal digits `0` to `9`. -/
def isDecimalDigit (c : Char) : Bool := decide ('0' ≤ c ∧ c ≤ '9')

/-- The natural number a run of decimal digits denotes (most significant
digit first). -/
def numeralValue (ds : List Char) : Nat :=
  ds.foldl (fun n c => 10 * n + (c.toNat - '0'.toNat)) 0

/-- The number an unsigned decimal numeral denotes: at least one character,
all of them decimal digits. -/
def numeral (ds : List Char) : Option Nat :=
  if ds ≠ [] ∧ ds.all isDecimalDigit = true then some (numeralValue ds) else none

/-- The integer value of a route parameter, in the mathematical sense: the
integer denoted by a decimal numeral with an optional sign, of any size;
`none` when the text is no such numeral. -/
def integerValue (id : String) : Option Int :=
  match id.toList with
  | [] => none
  | c :: rest =>
    if c = '-' then (numeral rest).map (fun (n : Nat) => -(n : Int))
    else if c = '+' then (numeral rest).map (fun (n : Nat) => (n : Int))
    else (numeral (c :: rest)).map (fun (n : Nat) => (n : Int))

/-! ## Handlers -/

section Handlers

variable {σ : Type}

/-- The handler `CreateProduct`. -/
def CreateProduct (db : Gateway σ) (c : Ctx) (s : σ) : Except FiberError Response × σ :=
  match c.Body with
  | none => (.error (NewError StatusBadRequest "Invalid request body"), s)
  | some p0 =>
    match validate p0 with
    | (_, some err) => (.error err, s)
    | (p, none) =>
      match db.insertReturningId p.Name p.Price p.Category s with
      | (.error _, s1) =>
        (.error (NewError StatusInternalServerError "Could not create product"), s1)
      | (.ok id, s1) => (.ok (JSON StatusCreated { p with ID := id }), s1)

/-- The handler `GetProduct`. -/
def GetProduct (db : Gateway σ) (c : Ctx) (s : σ) : Except FiberError Response × σ :=
  let id := c.ParamsId
  match db.selectById id s with
  | (.error .ErrNoRows, s1) => (.error (NewError StatusNotFound "Product not found"), s1)
  | (.error _, s1) =>
    (.error (NewError StatusInternalServerError "Could not retrieve product"), s1)
  | (.ok p, s1) => (.ok (JSON StatusOK p), s1)

/-- The handler `UpdateProduct`. -/
def UpdateProduct (db : Gateway σ) (c : Ctx) (s : σ) : Except FiberError Response × σ :=
  let id := c.ParamsId
  match c.Body with
  | none => (.error (NewError StatusBadRequest "Invalid request body"), s)
  | some p0 =>
    match validate p0 with
    | (_, some err) => (.error err, s)
    | (p, none) =>
      match db.updateById p.Name p.Price p.Category id s with
      | (.error _, s1) =>
        (.error (NewError StatusInternalServerError "Could not update product"), s1)
      | (.ok .countFailed, s1) =>
        (.error (NewError StatusInternalServerError "Could not verify update"), s1)
      | (.ok (.affected rowsAffected), s1) =>
        if rowsAffected = 0 then
          (.error (NewError StatusNotFound "Product not found"), s1)
        else
          (.ok (JSON StatusOK { p with ID := (Atoi id).1 }), s1)

/-- The handler `DeleteProduct`. -/
def DeleteProduct (db : Gateway σ) (c : Ctx) (s : σ) : Except FiberError Response × σ :=
  let id := c.ParamsId
  match db.deleteById id s with
  | (.error _, s1) =>
    (.error (NewError StatusInternalServerError "Could not delete product"), s1)
  | (.ok .countFailed, s1) =>
    (.error (NewError StatusInternalServerError "Could not verify deletion"), s1)
  | (.ok (.affected rowsAffected), s1) =>
    if rowsAffected = 0 then
      (.error (NewError StatusNotFound "Product not found"), s1)
    else
      (.ok (SendStatus StatusNoContent), s1)

/-- What the client receives: the handler's response, or the `ErrorHandler`
rendering of the error it returned. -/
def respond (r : Except FiberError Response) : Response :=
  match r with
  | .ok resp => resp
  | .error e => ErrorHandler (.fiber e)

end Handlers

/-- The route table of `main`: which handler a request reaches. -/
inductive Request where
  | post (c : Ctx)
  | get (c : Ctx)
  | put (c : Ctx)
  | delete (c : Ctx)
deriving DecidableEq, Repr

section Dispatch

variable {σ : Type}

/-- Dispatch of one request to its handler, as registered in `main`
(`POST /products`, `GET`, `PUT` and `DELETE /products/:id`). -/
def handle (db : Gateway σ) (req : Request) (s : σ) : Except FiberError Response × σ :=
  match req with
  | .post c => CreateProduct db c s
  | .get c => GetProduct db c s
  | .put c => UpdateProduct db c s
  | .delete c => DeleteProduct db c s

/-- The store after serving a sequence of requests one after another. -/
def serveAll (db : Gateway σ) (reqs : List Request) (s : σ) : σ :=
  reqs.foldl (fun st req => (handle db req st).2) s

end Dispatch

/-! ## The table model of the store -/

/-- Modelled from the spec: the relational store behind the `db` handle, which
is a database server outside `main.go`.  It is the single table
`products(id PK auto, name, price, category)`: the rows, and the counter that
generates the next `id`. -/
structure Store where
  rows : List Product
  nextId : Int
deriving DecidableEq, Repr

/-- Modelled from the spec: the empty table, whose first generated `id` is 1. -/
def Store.empty : Store := ⟨[], 1⟩

/-- Modelled from the spec: `insert(name, price, category) -> id | StoreError`.
The generated id comes from the counter; the row is appended unless the
primary key is already taken, which is a constraint violation.  The counter
advances either way. -/
def Store.insert (name : String) (price : Int) (category : String) (s : Store) :
    Except SqlError Int × Store :=
  if ∃ r ∈ s.rows, r.ID = s.nextId then
    (.error .failure, { s with nextId := s.nextId + 1 })
  else
    (.ok s.nextId, ⟨s.rows ++ [⟨s.nextId, name, price, category⟩], s.nextId + 1⟩)

/-- Modelled from the spec: `fetchById(id) -> Product | NotFound | StoreError`,
for a key already read as an integer: the first row with that id, `NotFound`
(`sql.ErrNoRows`) when no row matches.  The table is not changed. -/
def Store.fetch (k : Int) (s : Store) : Except SqlError Product × Store :=
  match s.rows.find? (fun r => decide (r.ID = k)) with
  | some r => (.ok r, s)
  | none => (.error .ErrNoRows, s)

/-- Modelled from the spec: `updateById(id, name, price, category) ->
affectedCount`: the three mutable fields of every matching row are replaced,
and the number of matching rows is reported (0 when none matched). -/
def Store.update (name : String) (price : Int) (category : String) (k : Int) (s : Store) :
    Except SqlError SqlResult × Store :=
  (.ok (.affected (s.rows.countP (fun r => decide (r.ID = k)))),
   { s with rows := s.rows.map (fun r =>
      if r.ID = k then { r with Name := name, Price := price, Category := category } else r) })

/-- Modelled from the spec: `deleteById(id) -> affectedCount`: the matching
rows are removed and their number is reported (0 when none matched). -/
def Store.delete (k : Int) (s : Store) : Except SqlError SqlResult × Store :=
  (.ok (.affected (s.rows.countP (fun r => decide (r.ID = k)))),
   { s with rows := s.rows.filter (fun r => decide (r.ID ≠ k)) })

/-- Modelled from the spec: the table as the gateway the handlers talk to.
The handlers pass the route parameter as a string; `keyOf` is how the store
reads such a string as an integer key, and a string it cannot read makes the
statement fail with a store error. -/
def tableGateway (keyOf : String → Option Int) : Gateway Store where
  insertReturningId := Store.insert
  selectById := fun id s =>
    match keyOf id with
    | some k => Store.fetch k s
    | none => (.error .failure, s)
  updateById := fun name price category id s =>
    match keyOf id with
    | some k => Store.update name price category k s
    | none => (.error .failure, s)
  deleteById := fun id s =>
    match keyOf id with
    | some k => Store.delete k s
    | none => (.error .failure, s)

/-- A concrete reading of textual keys: a signed decimal integer in the 64-bit
range, nothing else. -/
def decimalKey (id : String) : Option Int :=
  match Atoi id with
  | (k, none) => some k
  | (_, some _) => none

/-- The invariant of the data model on one row. -/
def RowValid (r : Product) : Prop := r.Name ≠ "" ∧ r.Price > 0 ∧ r.Category ≠ ""

instance (r : Product) : Decidable (RowValid r) := by unfold RowValid; infer_instance

/-- The invariant of the data model on the whole table. -/
def StoreValid (s : Store) : Prop := ∀ r ∈ s.rows, RowValid r

instance (s : Store) : Decidable (StoreValid s) := by unfold StoreValid; infer_instance

/-! ## Gateways with faults -/

/-- The ways the `UPDATE`/`DELETE` round trip can go wrong. -/
inductive Fault where
  | execFails
  | countFails
deriving DecidableEq, Repr

/-- A store that is out of order: depending on its state either every
statement fails, or `Exec` succeeds and `RowsAffected` fails. -/
def faultyGateway : Gateway Fault where
  insertReturningId := fun _ _ _ s => (.error .failure, s)
  selectById := fun _ s => (.error .failure, s)
  updateById := fun _ _ _ _ s =>
    match s with
    | .execFails => (.error .failure, s)
    | .countFails => (.ok .countFailed, s)
  deleteById := fun _ s =>
    match s with
    | .execFails => (.error .failure, s)
    | .countFails => (.ok .countFailed, s)

/-- The SQL statements a handler can issue. -/
inductive Statement where
  | insert
  | select
  | update
  | delete
deriving DecidableEq, Repr

/-- A gateway that behaves like `db` and also keeps the list of statements
issued so far (most recent first). -/
def logged {σ : Type} (db : Gateway σ) : Gateway (σ × List Statement) where
  insertReturningId := fun name price category st =>
    let r := db.insertReturningId name price category st.1
    (r.1, (r.2, Statement.insert :: st.2))
  selectById := fun id st =>
    let r := db.selectById id st.1
    (r.1, (r.2, Statement.select :: st.2))
  updateById := fun name price category id st =>
    let r := db.updateById name price category id st.1
    (r.1, (r.2, Statement.update :: st.2))
  deleteById := fun id st =>
    let r := db.deleteById id st.1
    (r.1, (r.2, Statement.delete :: st.2))

/-- A sample table: one valid row with id 1, next generated id 2. -/
def sampleStore : Store := ⟨[⟨1, "Widget", 10, "Tools"⟩], 2⟩

/-- A table whose only row carries an id beyond the 64-bit signed range, as a
column of unbounded integers can hold. -/
def wideStore : Store := ⟨[⟨99999999999999999999, "Widget", 10, "Tools"⟩], 1⟩

/-! ## `strconv.Atoi` against the integer value of a numeral -/

theorem isDecimalDigit_iff (c : Char) : isDecimalDigit c = true ↔ '0' ≤ c ∧ c ≤ '9' := by
  simp [isDecimalDigit]

theorem isDecimalDigit_ne_sign (c : Char) (h : isDecimalDigit c = true) :
    c ≠ '-' ∧ c ≠ '+' := by
  constructor <;>
  · rintro rfl
    revert h
    decide

theorem foldl_digits_ge (ds : List Char) :
    ∀ a : Nat, a ≤ ds.foldl (fun n c => 10 * n + (c.toNat - '0'.toNat)) a := by
  induction ds with
  | nil => intro a; exact Nat.le_refl a
  | cons c rest ih =>
    intro a
    simp only [List.foldl_cons]
    exact Nat.le_trans (by omega) (ih _)

theorem atoiFastLoop_digits (ds : List Char) :
    ∀ a : Nat, ds.all isDecimalDigit = true →
      atoiFastLoop ds a = some (ds.foldl (fun n c => 10 * n + (c.toNat - '0'.toNat)) a) := by
  induction ds with
  | nil => intro a _; rfl
  | cons c rest ih =>
    intro a h
    simp only [List.all_cons, Bool.and_eq_true] at h
    have hc := (isDecimalDigit_iff c).1 h.1
    simp only [atoiFastLoop, hc, and_self, if_true, List.foldl_cons]
    rw [ih _ h.2, Nat.mul_comm]

theorem parseUintLoop_digits (ds : List Char) :
    ∀ a : Nat, ds.all isDecimalDigit = true →
      ds.foldl (fun n c => 10 * n + (c.toNat - '0'.toNat)) a ≤ maxUint64 →
      parseUintLoop ds a
        = (ds.foldl (fun n c => 10 * n + (c.toNat - '0'.toNat)) a, none) := by
  induction ds with
  | nil => intro a _ _; rfl
  | cons c rest ih =>
    intro a h hb
    simp only [List.all_cons, Bool.and_eq_true] at h
    have hc := (isDecimalDigit_iff c).1 h.1
    simp only [List.foldl_cons] at hb ⊢
    have hstep := Nat.le_trans (foldl_digits_ge rest _) hb
    unfold maxUint64 at hstep hb
    have h1 : ¬ (a ≥ maxUint64 / 10 + 1) := by unfold maxUint64; omega
    have h2 : (a * 10) % 18446744073709551616 = a * 10 := by omega
    have h3 : (a * 10 + (c.toNat - '0'.toNat)) % 18446744073709551616
        = 10 * a + (c.toNat - '0'.toNat) := by omega
    have h4 : ¬ (10 * a + (c.toNat - '0'.toNat) < a * 10 ∨
        10 * a + (c.toNat - '0'.toNat) > maxUint64) := by unfold maxUint64; omega
    simp only [parseUintLoop, hc, and_self, if_true, if_neg h1, h2, h3, if_neg h4]
    exact ih _ h.2 (by unfold maxUint64; exact hb)

theorem ParseUint_numeral (ds : List Char) (n : Nat) (h : numeral ds = some n)
    (hb : n ≤ maxUint64) : ParseUint ds = (n, none) := by
  unfold numeral at h
  split_ifs at h with hd
  simp only [Option.some.injEq] at h
  subst h
  obtain ⟨hne, hall⟩ := hd
  cases ds with
  | nil => exact absurd rfl hne
  | cons c rest =>
    simp only [ParseUint]
    exact parseUintLoop_digits (c :: rest) 0 hall hb

theorem atoiFastLoop_numeral (ds : List Char) (n : Nat) (h : numeral ds = some n) :
    atoiFastLoop ds 0 = some n ∧ ds ≠ [] := by
  unfold numeral at h
  split_ifs at h with hd
  simp only [Option.some.injEq] at h
  subst h
  exact ⟨atoiFastLoop_digits ds 0 hd.2, hd.1⟩

theorem numeral_head (c : Char) (rest : List Char) (n : Nat)
    (h : numeral (c :: rest) = some n) : c ≠ '-' ∧ c ≠ '+' := by
  unfold numeral at h
  split_ifs at h with hd
  have hall := hd.2
  simp only [List.all_cons, Bool.and_eq_true] at hall
  exact isDecimalDigit_ne_sign c hall.1

/-- For a numeral whose value fits the 64-bit signed range, `ParseInt` returns
that value and no error. -/
theorem ParseInt_integerValue (cs : List Char) (k : Int)
    (h : (match cs with
      | [] => none
      | c :: rest =>
        if c = '-' then (numeral rest).map (fun (n : Nat) => -(n : Int))
        else if c = '+' then (numeral rest).map (fun (n : Nat) => (n : Int))
        else (numeral (c :: rest)).map (fun (n : Nat) => (n : Int))) = some k)
    (hlo : minInt64 ≤ k) (hhi : k ≤ maxInt64) : ParseInt cs = (k, none) := by
  unfold minInt64 at hlo
  unfold maxInt64 at hhi
  cases cs with
  | nil => simp at h
  | cons c rest =>
    simp only at h
    by_cases hm : c = '-'
    · subst hm
      rw [if_pos rfl] at h
      cases hnum : numeral rest with
      | none => rw [hnum] at h; simp at h
      | some n =>
        rw [hnum] at h
        simp only [Option.map_some', Option.some.injEq] at h
        subst h
        have hu := ParseUint_numeral rest n hnum (by unfold maxUint64; omega)
        have hplus : ¬ ('-' = '+') := by decide
        simp only [ParseInt, if_neg hplus, if_true, hu, decide_True]
        have hc2 : ¬ n > 9223372036854775808 := by omega
        simp [hc2]
    · by_cases hp : c = '+'
      · subst hp
        rw [if_neg hm, if_pos rfl] at h
        cases hnum : numeral rest with
        | none => rw [hnum] at h; simp at h
        | some n =>
          rw [hnum] at h
          simp only [Option.map_some', Option.some.injEq] at h
          subst h
          have hu := ParseUint_numeral rest n hnum (by unfold maxUint64; omega)
          simp only [ParseInt, if_true, hu, hm, decide_False]
          have hc1 : ¬ n ≥ 9223372036854775808 := by omega
          simp [hc1]
      · rw [if_neg hm, if_neg hp] at h
        cases hnum : numeral (c :: rest) with
        | none => rw [hnum] at h; simp at h
        | some n =>
          rw [hnum] at h
          simp only [Option.map_some', Option.some.injEq] at h
          subst h
          have hu := ParseUint_numeral (c :: rest) n hnum (by unfold maxUint64; omega)
          have hc1 : ¬ n ≥ 9223372036854775808 := by omega
          simp only [ParseInt, hm, hp, if_false, decide_False]
          rw [hu]
          simp [hc1]

/-- For a route parameter that is a numeral whose value fits the 64-bit signed
range, `strconv.Atoi` returns that value and no error. -/
theorem Atoi_integerValue (id : String) (k : Int) (h : integerValue id = some k)
    (hlo : minInt64 ≤ k) (hhi : k ≤ maxInt64) : Atoi id = (k, none) := by
  unfold Atoi
  simp only
  split_ifs with hlen
  · unfold integerValue at h
    cases hs : id.toList with
    | nil => rw [hs] at h; simp at h
    | cons c rest =>
      rw [hs] at h
      simp only at h ⊢
      by_cases hm : c = '-'
      · subst hm
        rw [if_pos rfl] at h
        cases hnum : numeral rest with
        | none => rw [hnum] at h; simp at h
        | some n =>
          rw [hnum] at h
          simp only [Option.map_some', Option.some.injEq] at h
          subst h
          obtain ⟨hf, hne⟩ := atoiFastLoop_numeral rest n hnum
          simp [hne, hf]
      · by_cases hp : c = '+'
        · subst hp
          rw [if_neg hm, if_pos rfl] at h
          cases hnum : numeral rest with
          | none => rw [hnum] at h; simp at h
          | some n =>
            rw [hnum] at h
            simp only [Option.map_some', Option.some.injEq] at h
            subst h
            obtain ⟨hf, hne⟩ := atoiFastLoop_numeral rest n hnum
            simp [hne, hf]
        · rw [if_neg hm, if_neg hp] at h
          cases hnum : numeral (c :: rest) with
          | none => rw [hnum] at h; simp at h
          | some n =>
            rw [hnum] at h
            simp only [Option.map_some', Option.some.injEq] at h
            subst h
            obtain ⟨hf, -⟩ := atoiFastLoop_numeral (c :: rest) n hnum
            simp [hm, hp, hf]
  · exact ParseInt_integerValue id.toList k h hlo hhi

/-! ## The decimal rendering of an integer is a numeral of that value -/

theorem digitChar_isDecimalDigit (d : Nat) (h : d < 10) :
    isDecimalDigit (Nat.digitChar d) = true ∧ (Nat.digitChar d).toNat - '0'.toNat = d := by
  interval_cases d <;> exact ⟨by decide, by decide⟩

theorem toDigitsCore_append (fuel : Nat) :
    ∀ (n : Nat) (ds : List Char),
      Nat.toDigitsCore 10 fuel n ds = Nat.toDigitsCore 10 fuel n [] ++ ds := by
  induction fuel with
  | zero => intro n ds; rfl
  | succ fuel ih =>
    intro n ds
    simp only [Nat.toDigitsCore]
    split_ifs
    · rfl
    · rw [ih (n / 10) (Nat.digitChar (n % 10) :: ds), ih (n / 10) [Nat.digitChar (n % 10)]]
      simp

theorem toDigitsCore_numeral (fuel : Nat) :
    ∀ n : Nat, n < fuel →
      (Nat.toDigitsCore 10 fuel n []).all isDecimalDigit = true ∧
      numeralValue (Nat.toDigitsCore 10 fuel n []) = n ∧
      Nat.toDigitsCore 10 fuel n [] ≠ [] := by
  induction fuel with
  | zero => intro n h; omega
  | succ fuel ih =>
    intro n h
    obtain ⟨hd, hv⟩ := digitChar_isDecimalDigit (n % 10) (Nat.mod_lt _ (by decide))
    simp only [Nat.toDigitsCore]
    split_ifs with h0
    · refine ⟨by simp [hd], ?_, by simp⟩
      simp only [numeralValue, List.foldl_cons, List.foldl_nil, hv]
      omega
    · rw [toDigitsCore_append]
      obtain ⟨ha, hn, -⟩ := ih (n / 10) (by omega)
      refine ⟨by simp [ha, hd], ?_, by simp⟩
      unfold numeralValue at hn ⊢
      simp only [List.foldl_append, List.foldl_cons, List.foldl_nil, hn, hv]
      omega

theorem numeral_repr (n : Nat) : numeral (Nat.repr n).toList = some n := by
  obtain ⟨ha, hn, hne⟩ := toDigitsCore_numeral (n + 1) n (Nat.lt_succ_self n)
  have hl : (Nat.repr n).toList = Nat.toDigitsCore 10 (n + 1) n [] := rfl
  rw [hl]
  unfold numeral
  rw [if_pos ⟨hne, ha⟩, hn]

theorem integerValue_toString (k : Int) : integerValue (toString k) = some k := by
  cases k with
  | ofNat m =>
    have hl : (toString (Int.ofNat m)).toList = (Nat.repr m).toList := rfl
    have hnum := numeral_repr m
    unfold integerValue
    rw [hl]
    cases hs : (Nat.repr m).toList with
    | nil => rw [hs] at hnum; simp [numeral] at hnum
    | cons c rest =>
      rw [hs] at hnum
      obtain ⟨hm, hp⟩ := numeral_head c rest m hnum
      simp only [if_neg hm, if_neg hp, hnum]
      rfl
  | negSucc m =>
    have hl : (toString (Int.negSucc m)).toList = '-' :: (Nat.repr (m + 1)).toList := by
      show ("-" ++ Nat.repr (m + 1)).toList = _
      simp [String.toList]
    have hnum := numeral_repr (m + 1)
    unfold integerValue
    rw [hl]
    simp only [if_true, hnum, Option.map_some', Option.some.injEq]
    rw [Int.negSucc_eq]
    rfl

theorem Atoi_toString (k : Int) (hlo : minInt64 ≤ k) (hhi : k ≤ maxInt64) :
    Atoi (toString k) = (k, none) :=
  Atoi_integerValue (toString k) k (integerValue_toString k) hlo hhi

theorem decimalKey_toString (k : Int) (hlo : minInt64 ≤ k) (hhi : k ≤ maxInt64) :
    decimalKey (toString k) = some k := by
  unfold decimalKey
  rw [Atoi_toString k hlo hhi]

/-! ## Validation: lemmas -/

theorem validate_fst (p : Product) : (validate p).1 = p := by
  unfold validate
  split_ifs <;> rfl

theorem validate_eq (p : Product) : validate p = (p, (validate p).2) :=
  Prod.ext (validate_fst p) rfl

theorem validate_snd_eq_none_iff (p : Product) :
    (validate p).2 = none ↔ p.Name ≠ "" ∧ p.Price > 0 ∧ p.Category ≠ "" := by
  by_cases h1 : p.Name = "" <;> by_cases h2 : p.Price ≤ 0 <;>
    by_cases h3 : p.Category = "" <;> simp [validate, h1, h2, h3]
  all_goals omega

theorem validate_valid (p : Product) (h : RowValid p) : (validate p).2 = none :=
  (validate_snd_eq_none_iff p).2 h

theorem validate_code (p : Product) (e : FiberError) (h : (validate p).2 = some e) :
    e.Code = 400 := by
  unfold validate at h
  split_ifs at h <;> simp [NewError, StatusBadRequest] at h <;> simp [← h]

/-! ## Handlers: what happens before and after the store is reached -/

section HandlerLemmas

variable {σ : Type}

theorem CreateProduct_invalid (db : Gateway σ) (s : σ) (c : Ctx) (p : Product)
    (err : FiberError) (hbody : c.Body = some p) (hv : (validate p).2 = some err) :
    CreateProduct db c s = (.error err, s) := by
  unfold CreateProduct
  rw [hbody]
  simp only
  rw [validate_eq p, hv]

theorem UpdateProduct_invalid (db : Gateway σ) (s : σ) (c : Ctx) (p : Product)
    (err : FiberError) (hbody : c.Body = some p) (hv : (validate p).2 = some err) :
    UpdateProduct db c s = (.error err, s) := by
  unfold UpdateProduct
  rw [hbody]
  simp only
  rw [validate_eq p, hv]

theorem CreateProduct_valid (db : Gateway σ) (s : σ) (c : Ctx) (p : Product)
    (hbody : c.Body = some p) (hv : (validate p).2 = none) :
    CreateProduct db c s =
      match db.insertReturningId p.Name p.Price p.Category s with
      | (.error _, s1) =>
        (.error (NewError StatusInternalServerError "Could not create product"), s1)
      | (.ok id, s1) => (.ok (JSON StatusCreated { p with ID := id }), s1) := by
  unfold CreateProduct
  rw [hbody]
  simp only
  rw [validate_eq p, hv]

theorem UpdateProduct_valid (db : Gateway σ) (s : σ) (c : Ctx) (p : Product)
    (hbody : c.Body = some p) (hv : (validate p).2 = none) :
    UpdateProduct db c s =
      match db.updateById p.Name p.Price p.Category c.ParamsId s with
      | (.error _, s1) =>
        (.error (NewError StatusInternalServerError "Could not update product"), s1)
      | (.ok .countFailed, s1) =>
        (.error (NewError StatusInternalServerError "Could not verify update"), s1)
      | (.ok (.affected rowsAffected), s1) =>
        if rowsAffected = 0 then
          (.error (NewError StatusNotFound "Product not found"), s1)
        else
          (.ok (JSON StatusOK { p with ID := (Atoi c.ParamsId).1 }), s1) := by
  unfold UpdateProduct
  rw [hbody]
  simp only
  rw [validate_eq p, hv]

end HandlerLemmas

/-! ## Validation errors of the handlers -/

/-- C1: when the parsed body has an empty name, whatever its price and
category (and its id), `CreateProduct` and `UpdateProduct` both return the
error with status 400 and message "Name is required", on every store and for
every route parameter. -/
theorem empty_name_rejected {σ : Type} (db : Gateway σ) (s : σ) (c : Ctx) (p : Product)
    (hbody : c.Body = some p) (hname : p.Name = "") :
    (CreateProduct db c s).1 = .error ⟨400, "Name is required"⟩ ∧
    (UpdateProduct db c s).1 = .error ⟨400, "Name is required"⟩ := by
  have hv : (validate p).2 = some ⟨400, "Name is required"⟩ := by
    simp [validate, hname, NewError, StatusBadRequest]
  rw [CreateProduct_invalid db s c p _ hbody hv, UpdateProduct_invalid db s c p _ hbody hv]
  exact ⟨rfl, rfl⟩

/-- Witness of C1: an empty name with an invalid price and an empty category,
sent to a table that holds a row. -/
theorem empty_name_rejected_witness :
    (CreateProduct (tableGateway decimalKey) ⟨"1", some ⟨0, "", -3, ""⟩⟩ sampleStore).1
      = .error ⟨400, "Name is required"⟩ ∧
    (UpdateProduct (tableGateway decimalKey) ⟨"1", some ⟨0, "", -3, ""⟩⟩ sampleStore).1
      = .error ⟨400, "Name is required"⟩ :=
  empty_name_rejected (tableGateway decimalKey) sampleStore ⟨"1", some ⟨0, "", -3, ""⟩⟩
    ⟨0, "", -3, ""⟩ rfl rfl

/-- C2: when the parsed body has a non-empty name and a price that is zero or
negative, whatever its category, `CreateProduct` and `UpdateProduct` both
return the error with status 400 and message "Price must be greater than 0". -/
theorem nonpositive_price_rejected {σ : Type} (db : Gateway σ) (s : σ) (c : Ctx)
    (p : Product) (hbody : c.Body = some p) (hname : p.Name ≠ "") (hprice : p.Price ≤ 0) :
    (CreateProduct db c s).1 = .error ⟨400, "Price must be greater than 0"⟩ ∧
    (UpdateProduct db c s).1 = .error ⟨400, "Price must be greater than 0"⟩ := by
  have hv : (validate p).2 = some ⟨400, "Price must be greater than 0"⟩ := by
    simp [validate, hname, hprice, NewError, StatusBadRequest]
  rw [CreateProduct_invalid db s c p _ hbody hv, UpdateProduct_invalid db s c p _ hbody hv]
  exact ⟨rfl, rfl⟩

/-- Witness of C2: price 0 with an empty category. -/
theorem nonpositive_price_rejected_witness :
    (CreateProduct (tableGateway decimalKey) ⟨"1", some ⟨0, "Widget", 0, ""⟩⟩ sampleStore).1
      = .error ⟨400, "Price must be greater than 0"⟩ ∧
    (UpdateProduct (tableGateway decimalKey) ⟨"1", some ⟨0, "Widget", 0, ""⟩⟩ sampleStore).1
      = .error ⟨400, "Price must be greater than 0"⟩ :=
  nonpositive_price_rejected (tableGateway decimalKey) sampleStore
    ⟨"1", some ⟨0, "Widget", 0, ""⟩⟩ ⟨0, "Widget", 0, ""⟩ rfl (by decide) (by decide)

/-- C3: `validate` returns exactly what the three-rule, first-failure-wins
validator of the specification returns; it returns no error if and only if the
name is non-empty, the price is positive and the category is non-empty;
otherwise the error is the status-400 error of the first failing rule, in the
order name, price, category; the result does not depend on the id field, and
the product is left as it was. -/
theorem validate_refines_spec (p : Product) :
    (validate p).2 = validateSpec p ∧
    ((validate p).2 = none ↔ p.Name ≠ "" ∧ p.Price > 0 ∧ p.Category ≠ "") ∧
    (p.Name = "" → (validate p).2 = some ⟨400, "Name is required"⟩) ∧
    (p.Name ≠ "" → p.Price ≤ 0 →
      (validate p).2 = some ⟨400, "Price must be greater than 0"⟩) ∧
    (p.Name ≠ "" → p.Price > 0 → p.Category = "" →
      (validate p).2 = some ⟨400, "Category is required"⟩) ∧
    (∀ i : Int, (validate { p with ID := i }).2 = (validate p).2) ∧
    (validate p).1 = p := by
  refine ⟨?_, validate_snd_eq_none_iff p, ?_, ?_, ?_, ?_, validate_fst p⟩
  · by_cases h1 : p.Name = "" <;> by_cases h2 : p.Price ≤ 0 <;>
      by_cases h3 : p.Category = "" <;>
      simp [validate, validateSpec, ValidationError, NewError, StatusBadRequest, h1, h2, h3]
    all_goals split_ifs <;> first | rfl | omega
  · intro h1
    simp [validate, h1, NewError, StatusBadRequest]
  · intro h1 h2
    simp [validate, h1, h2, NewError, StatusBadRequest]
  · intro h1 h2 h3
    have h2n : ¬ p.Price ≤ 0 := by omega
    simp [validate, h1, h2n, h3, NewError, StatusBadRequest]
  · intro i
    unfold validate
    split_ifs <;> rfl

/-- C7: when the parsed body fails validation, `UpdateProduct` and
`CreateProduct` return that validation error, whose status is 400, and the
store is exactly as before.  This holds for every gateway, even one that
changes its state on every statement, so no statement is issued. -/
theorem invalid_body_leaves_store {σ : Type} (db : Gateway σ) (s : σ) (c : Ctx)
    (p : Product) (err : FiberError) (hbody : c.Body = some p)
    (hv : (validate p).2 = some err) :
    UpdateProduct db c s = (.error err, s) ∧
    CreateProduct db c s = (.error err, s) ∧
    err.Code = 400 :=
  ⟨UpdateProduct_invalid db s c p err hbody hv, CreateProduct_invalid db s c p err hbody hv,
    validate_code p err hv⟩

/-- Witness of C7: `PUT /products/1` with an empty name, price 5 and category
"Tools" on a table holding row 1.  The client receives status 400 with the
error message "Name is required"; the table and the (empty) log of issued
statements are unchanged, and row 1 is still served as before. -/
theorem invalid_body_leaves_store_witness :
    respond (UpdateProduct (logged (tableGateway decimalKey))
        ⟨"1", some ⟨0, "", 5, "Tools"⟩⟩ (sampleStore, [])).1
      = ⟨400, .errorJson "Name is required"⟩ ∧
    (UpdateProduct (logged (tableGateway decimalKey))
        ⟨"1", some ⟨0, "", 5, "Tools"⟩⟩ (sampleStore, [])).2 = (sampleStore, []) ∧
    (CreateProduct (logged (tableGateway decimalKey))
        ⟨"1", some ⟨0, "", 5, "Tools"⟩⟩ (sampleStore, [])).2 = (sampleStore, []) ∧
    (GetProduct (tableGateway decimalKey) ⟨"1", none⟩ sampleStore).1
      = .ok ⟨200, .json ⟨1, "Widget", 10, "Tools"⟩⟩ := by
  have h := invalid_body_leaves_store (logged (tableGateway decimalKey)) (sampleStore, [])
    ⟨"1", some ⟨0, "", 5, "Tools"⟩⟩ ⟨0, "", 5, "Tools"⟩ ⟨400, "Name is required"⟩ rfl
    (by decide)
  refine ⟨?_, ?_, ?_, by decide⟩
  · rw [h.1]; rfl
  · rw [h.1]
  · rw [h.2.1]

/-! ## Update: response and store failures -/

/-- The response of `UpdateProduct` for a valid body and an `UPDATE` that
reports a non-zero number of affected rows: status 200, the id that
`strconv.Atoi` returns for the route parameter (its error is discarded), and
the name, price and category of the body, whatever id the body carries. -/
theorem UpdateProduct_affected {σ : Type} (db : Gateway σ) (s s1 : σ) (c : Ctx)
    (p : Product) (n : Int) (hv : (validate p).2 = none)
    (hexec : db.updateById p.Name p.Price p.Category c.ParamsId s = (.ok (.affected n), s1))
    (hn : n ≠ 0) (j : Int) :
    UpdateProduct db { c with Body := some { p with ID := j } } s =
      (.ok ⟨200, .json ⟨(Atoi c.ParamsId).1, p.Name, p.Price, p.Category⟩⟩, s1) := by
  have hv2 : (validate { p with ID := j }).2 = none := by
    rw [validate_snd_eq_none_iff] at hv ⊢
    exact hv
  rw [UpdateProduct_valid db s _ { p with ID := j } rfl hv2]
  simp only [hexec, if_neg hn]
  rfl

/-- C8, as the code has it: when the route parameter is a decimal numeral with
an optional sign whose integer value `k` fits the 64-bit signed range, then
for every valid body and every store whose `UPDATE` reports a non-zero number
of affected rows, `UpdateProduct` answers 200 with the product whose id is `k`
and whose name, price and category are those of the body; the id carried by
the body has no influence on the response. -/
theorem update_response_id_from_path {σ : Type} (db : Gateway σ) (s s1 : σ) (c : Ctx)
    (p : Product) (n k : Int) (hbody : c.Body = some p) (hv : (validate p).2 = none)
    (hexec : db.updateById p.Name p.Price p.Category c.ParamsId s = (.ok (.affected n), s1))
    (hn : n ≠ 0) (hpath : integerValue c.ParamsId = some k)
    (hlo : minInt64 ≤ k) (hhi : k ≤ maxInt64) :
    UpdateProduct db c s = (.ok ⟨200, .json ⟨k, p.Name, p.Price, p.Category⟩⟩, s1) ∧
    (∀ j : Int, UpdateProduct db { c with Body := some { p with ID := j } } s =
      (.ok ⟨200, .json ⟨k, p.Name, p.Price, p.Category⟩⟩, s1)) := by
  have hatoi : (Atoi c.ParamsId).1 = k := by
    rw [Atoi_integerValue c.ParamsId k hpath hlo hhi]
  have key : ∀ j : Int, UpdateProduct db { c with Body := some { p with ID := j } } s =
      (.ok ⟨200, .json ⟨k, p.Name, p.Price, p.Category⟩⟩, s1) := by
    intro j
    rw [UpdateProduct_affected db s s1 c p n hv hexec hn j, hatoi]
  have hc : ({ c with Body := some { p with ID := p.ID } } : Ctx) = c := by
    cases c; cases p; simp_all
  have hmain := key p.ID
  rw [hc] at hmain
  exact ⟨hmain, key⟩

/-- Witness of C8 as amended: `PUT /products/1` on a table holding row 1, with
a body that claims id 99: the route parameter has integer value 1 and the
response carries id 1. -/
theorem update_response_id_from_path_witness :
    integerValue "1" = some 1 ∧
    UpdateProduct (tableGateway decimalKey) ⟨"1", some ⟨99, "Gadget", 25, "Toys"⟩⟩ sampleStore
      = (.ok ⟨200, .json ⟨1, "Gadget", 25, "Toys"⟩⟩, ⟨[⟨1, "Gadget", 25, "Toys"⟩], 2⟩) :=
  ⟨by decide,
   (update_response_id_from_path (tableGateway decimalKey) sampleStore
    ⟨[⟨1, "Gadget", 25, "Toys"⟩], 2⟩ ⟨"1", some ⟨99, "Gadget", 25, "Toys"⟩⟩
    ⟨99, "Gadget", 25, "Toys"⟩ 1 1 rfl (by decide) (by decide) (by decide) (by decide)
    (by decide) (by decide)).1⟩

/-- Counterexample to C8 as stated: the route parameter
`99999999999999999999` is a numeral with that integer value; on a table that
reads it as the key of its only row, a valid `PUT` affects one row and is
answered 200, yet the id in the response is 9223372036854775807, the bound at
which `strconv.Atoi` stops, and not the integer value of the route parameter. -/
theorem update_response_id_counterexample :
    integerValue "99999999999999999999" = some 99999999999999999999 ∧
    (tableGateway integerValue).updateById "Gadget" 25 "Toys" "99999999999999999999" wideStore
      = (.ok (.affected 1), ⟨[⟨99999999999999999999, "Gadget", 25, "Toys"⟩], 1⟩) ∧
    UpdateProduct (tableGateway integerValue)
        ⟨"99999999999999999999", some ⟨0, "Gadget", 25, "Toys"⟩⟩ wideStore
      = (.ok ⟨200, .json ⟨9223372036854775807, "Gadget", 25, "Toys"⟩⟩,
         ⟨[⟨99999999999999999999, "Gadget", 25, "Toys"⟩], 1⟩) ∧
    (9223372036854775807 : Int) ≠ 99999999999999999999 := by
  decide

/-- C9, as the code has it: for a valid body, a failure of the `UPDATE`
statement yields status 500 with the message "Could not update product", and a
failure to read the affected-row count yields status 500 with the message
"Could not verify update". -/
theorem update_store_failure_messages {σ : Type} (db : Gateway σ) (s : σ) (c : Ctx)
    (p : Product) (hbody : c.Body = some p) (hv : (validate p).2 = none) :
    (∀ (e : SqlError) (s1 : σ),
      db.updateById p.Name p.Price p.Category c.ParamsId s = (.error e, s1) →
      UpdateProduct db c s = (.error ⟨500, "Could not update product"⟩, s1)) ∧
    (∀ s1 : σ,
      db.updateById p.Name p.Price p.Category c.ParamsId s = (.ok .countFailed, s1) →
      UpdateProduct db c s = (.error ⟨500, "Could not verify update"⟩, s1)) := by
  rw [UpdateProduct_valid db s c p hbody hv]
  constructor
  · intro e s1 h
    rw [h]
    rfl
  · intro s1 h
    rw [h]
    rfl

/-- Witness of C9 as amended: a valid `PUT` against a store whose statements
fail, and against one whose affected-row count cannot be read. -/
theorem update_store_failure_messages_witness :
    respond (UpdateProduct faultyGateway ⟨"1", some ⟨0, "Widget", 10, "Tools"⟩⟩
        Fault.execFails).1 = ⟨500, .errorJson "Could not update product"⟩ ∧
    respond (UpdateProduct faultyGateway ⟨"1", some ⟨0, "Widget", 10, "Tools"⟩⟩
        Fault.countFails).1 = ⟨500, .errorJson "Could not verify update"⟩ := by
  have h1 := (update_store_failure_messages faultyGateway Fault.execFails
    ⟨"1", some ⟨0, "Widget", 10, "Tools"⟩⟩ ⟨0, "Widget", 10, "Tools"⟩ rfl (by decide)).1
    SqlError.failure Fault.execFails rfl
  have h2 := (update_store_failure_messages faultyGateway Fault.countFails
    ⟨"1", some ⟨0, "Widget", 10, "Tools"⟩⟩ ⟨0, "Widget", 10, "Tools"⟩ rfl (by decide)).2
    Fault.countFails rfl
  rw [h1, h2]
  exact ⟨rfl, rfl⟩

/-- Counterexample to C9 as stated: a valid `PUT` whose `UPDATE` statement
fails, and one whose affected-row count cannot be read, are answered with the
messages "Could not update product" and "Could not verify update"; neither is
"Could not update update/verify". -/
theorem update_store_failure_message_counterexample :
    (UpdateProduct faultyGateway ⟨"1", some ⟨0, "Widget", 10, "Tools"⟩⟩ Fault.execFails).1
      = .error ⟨500, "Could not update product"⟩ ∧
    (UpdateProduct faultyGateway ⟨"1", some ⟨0, "Widget", 10, "Tools"⟩⟩ Fault.countFails).1
      = .error ⟨500, "Could not verify update"⟩ ∧
    (UpdateProduct faultyGateway ⟨"1", some ⟨0, "Widget", 10, "Tools"⟩⟩ Fault.execFails).1
      ≠ .error ⟨500, "Could not update update/verify"⟩ ∧
    (UpdateProduct faultyGateway ⟨"1", some ⟨0, "Widget", 10, "Tools"⟩⟩ Fault.countFails).1
      ≠ .error ⟨500, "Could not update update/verify"⟩ := by
  decide

/-! ## The table: lemmas -/

theorem Store.insert_ok (name : String) (price : Int) (category : String) (s s1 : Store)
    (k : Int) (h : Store.insert name price category s = (.ok k, s1)) :
    k = s.nextId ∧ (∀ r ∈ s.rows, r.ID ≠ k) ∧
    s1 = ⟨s.rows ++ [⟨k, name, price, category⟩], s.nextId + 1⟩ := by
  unfold Store.insert at h
  split_ifs at h with hc
  · simp at h
  · simp only [Prod.mk.injEq, Except.ok.injEq] at h
    obtain ⟨hk, hs⟩ := h
    subst hk
    refine ⟨rfl, ?_, hs.symm⟩
    intro r hr hid
    exact hc ⟨r, hr, hid⟩

theorem Store.fetch_appended (rows : List Product) (n : Int) (q : Product)
    (hfresh : ∀ r ∈ rows, r.ID ≠ q.ID) :
    Store.fetch q.ID ⟨rows ++ [q], n⟩ = (.ok q, ⟨rows ++ [q], n⟩) := by
  have hnone : rows.find? (fun r => decide (r.ID = q.ID)) = none := by
    rw [List.find?_eq_none]
    intro r hr
    simpa using hfresh r hr
  unfold Store.fetch
  simp [List.find?_append, hnone]

theorem Store.fetch_absent (k : Int) (s : Store) (hno : ∀ r ∈ s.rows, r.ID ≠ k) :
    Store.fetch k s = (.error .ErrNoRows, s) := by
  have hnone : s.rows.find? (fun r => decide (r.ID = k)) = none := by
    rw [List.find?_eq_none]
    intro r hr
    simpa using hno r hr
  unfold Store.fetch
  rw [hnone]

theorem Store.count_absent (k : Int) (rows : List Product) (hno : ∀ r ∈ rows, r.ID ≠ k) :
    rows.countP (fun r => decide (r.ID = k)) = 0 := by
  rw [List.countP_eq_zero]
  intro r hr
  simpa using hno r hr

theorem Store.count_present (k : Int) (rows : List Product) (h : ∃ r ∈ rows, r.ID = k) :
    ((rows.countP (fun r => decide (r.ID = k)) : Nat) : Int) ≠ 0 := by
  have hpos : 0 < rows.countP (fun r => decide (r.ID = k)) := by
    rw [List.countP_pos_iff]
    obtain ⟨r, hr, hid⟩ := h
    exact ⟨r, hr, by simpa using hid⟩
  omega

theorem Store.update_absent (name : String) (price : Int) (category : String) (k : Int)
    (s : Store) (hno : ∀ r ∈ s.rows, r.ID ≠ k) :
    Store.update name price category k s = (.ok (.affected 0), s) := by
  have hmap : s.rows.map (fun r =>
      if r.ID = k then { r with Name := name, Price := price, Category := category } else r)
      = s.rows := by
    conv_rhs => rw [← List.map_id s.rows]
    apply List.map_congr_left
    intro r hr
    simp [hno r hr]
  unfold Store.update
  rw [hmap, Store.count_absent k s.rows hno]
  rfl

theorem Store.delete_rows_absent (k : Int) (s : Store) :
    ∀ r ∈ (Store.delete k s).2.rows, r.ID ≠ k := by
  intro r hr
  simp only [Store.delete, List.mem_filter] at hr
  simpa using hr.2

theorem Store.delete_absent (k : Int) (s : Store) (hno : ∀ r ∈ s.rows, r.ID ≠ k) :
    Store.delete k s = (.ok (.affected 0), (Store.delete k s).2) := by
  unfold Store.delete
  rw [Store.count_absent k s.rows hno]
  rfl

/-! ## The table: the invariant of the data model -/

theorem CreateProduct_preserves (keyOf : String → Option Int) (s : Store) (c : Ctx)
    (h : StoreValid s) : StoreValid (CreateProduct (tableGateway keyOf) c s).2 := by
  cases hb : c.Body with
  | none =>
    simp only [CreateProduct, hb]
    exact h
  | some p =>
    cases hv : (validate p).2 with
    | some err =>
      rw [CreateProduct_invalid _ s c p err hb hv]
      exact h
    | none =>
      have hp : RowValid p := (validate_snd_eq_none_iff p).1 hv
      rw [CreateProduct_valid _ s c p hb hv]
      simp only [tableGateway, Store.insert]
      split_ifs with hc
      · exact h
      · intro r hr
        simp only [List.mem_append, List.mem_singleton] at hr
        rcases hr with hr | rfl
        · exact h r hr
        · exact hp

theorem GetProduct_state (keyOf : String → Option Int) (s : Store) (c : Ctx) :
    (GetProduct (tableGateway keyOf) c s).2 = s := by
  simp only [GetProduct, tableGateway]
  cases keyOf c.ParamsId with
  | none => rfl
  | some k =>
    simp only [Store.fetch]
    cases s.rows.find? (fun r => decide (r.ID = k)) <;> rfl

theorem UpdateProduct_preserves (keyOf : String → Option Int) (s : Store) (c : Ctx)
    (h : StoreValid s) : StoreValid (UpdateProduct (tableGateway keyOf) c s).2 := by
  cases hb : c.Body with
  | none =>
    simp only [UpdateProduct, hb]
    exact h
  | some p =>
    cases hv : (validate p).2 with
    | some err =>
      rw [UpdateProduct_invalid _ s c p err hb hv]
      exact h
    | none =>
      have hp : RowValid p := (validate_snd_eq_none_iff p).1 hv
      rw [UpdateProduct_valid _ s c p hb hv]
      simp only [tableGateway]
      cases keyOf c.ParamsId with
      | none => exact h
      | some k =>
        have hmapped : StoreValid (Store.update p.Name p.Price p.Category k s).2 := by
          intro r hr
          simp only [Store.update, List.mem_map] at hr
          obtain ⟨r0, hr0, rfl⟩ := hr
          split_ifs
          · exact hp
          · exact h r0 hr0
        simp only [Store.update] at hmapped ⊢
        split_ifs <;> exact hmapped

theorem DeleteProduct_preserves (keyOf : String → Option Int) (s : Store) (c : Ctx)
    (h : StoreValid s) : StoreValid (DeleteProduct (tableGateway keyOf) c s).2 := by
  simp only [DeleteProduct, tableGateway]
  cases keyOf c.ParamsId with
  | none => exact h
  | some k =>
    have hfiltered : StoreValid (Store.delete k s).2 := by
      intro r hr
      simp only [Store.delete, List.mem_filter] at hr
      exact h r hr.1
    simp only [Store.delete] at hfiltered ⊢
    split_ifs <;> exact hfiltered

theorem handle_preserves (keyOf : String → Option Int) (s : Store) (req : Request)
    (h : StoreValid s) : StoreValid (handle (tableGateway keyOf) req s).2 := by
  cases req with
  | post c => exact CreateProduct_preserves keyOf s c h
  | get c =>
    simp only [handle]
    rw [GetProduct_state]
    exact h
  | put c => exact UpdateProduct_preserves keyOf s c h
  | delete c => exact DeleteProduct_preserves keyOf s c h

theorem serveAll_preserves (keyOf : String → Option Int) (reqs : List Request) :
    ∀ s : Store, StoreValid s → StoreValid (serveAll (tableGateway keyOf) reqs s) := by
  induction reqs with
  | nil => intro s h; exact h
  | cons req rest ih =>
    intro s h
    simp only [serveAll, List.foldl_cons]
    exact ih _ (handle_preserves keyOf s req h)

theorem StoreValid_empty : StoreValid Store.empty := by
  intro r hr
  simp [Store.empty] at hr

/-! ## The table: round trip, deletion, update of a missing row -/

theorem CreateProduct_fresh (keyOf : String → Option Int) (s : Store) (c : Ctx)
    (p : Product) (hbody : c.Body = some p) (hp : RowValid p)
    (hfresh : ∀ r ∈ s.rows, r.ID ≠ s.nextId) :
    CreateProduct (tableGateway keyOf) c s =
      (.ok ⟨201, .json ⟨s.nextId, p.Name, p.Price, p.Category⟩⟩,
       ⟨s.rows ++ [⟨s.nextId, p.Name, p.Price, p.Category⟩], s.nextId + 1⟩) := by
  have hc : ¬ ∃ r ∈ s.rows, r.ID = s.nextId := by
    rintro ⟨r, hr, hid⟩
    exact hfresh r hr hid
  rw [CreateProduct_valid _ s c p hbody (validate_valid p hp)]
  simp only [tableGateway, Store.insert, if_neg hc]
  rfl

/-- C4: on the table, when `CreateProduct` with parsed body `p` succeeds, its
response has status 201 and carries an assigned id `k` with the name, price and
category of `p`; every later `GetProduct` whose route parameter the store reads
as `k` answers 200 with exactly that product and leaves the table alone; and
the id written in the create body plays no part. -/
theorem create_then_get (keyOf : String → Option Int) (s s1 : Store) (c : Ctx)
    (p : Product) (resp : Response) (hbody : c.Body = some p)
    (hcreate : CreateProduct (tableGateway keyOf) c s = (.ok resp, s1)) :
    ∃ k : Int,
      resp = ⟨201, .json ⟨k, p.Name, p.Price, p.Category⟩⟩ ∧
      (∀ c1 : Ctx, keyOf c1.ParamsId = some k →
        GetProduct (tableGateway keyOf) c1 s1
          = (.ok ⟨200, .json ⟨k, p.Name, p.Price, p.Category⟩⟩, s1)) ∧
      (∀ j : Int,
        CreateProduct (tableGateway keyOf) { c with Body := some { p with ID := j } } s
          = (.ok resp, s1)) := by
  cases hv : (validate p).2 with
  | some err =>
    rw [CreateProduct_invalid _ s c p err hbody hv] at hcreate
    simp at hcreate
  | none =>
    have hcreate0 := hcreate
    rw [CreateProduct_valid _ s c p hbody hv] at hcreate
    cases hins : Store.insert p.Name p.Price p.Category s with
    | mk res s2 =>
      have hins1 : (tableGateway keyOf).insertReturningId p.Name p.Price p.Category s
          = (res, s2) := hins
      rw [hins1] at hcreate
      cases res with
      | error e => simp at hcreate
      | ok k =>
        simp only [Prod.mk.injEq, Except.ok.injEq] at hcreate
        obtain ⟨hresp, hs⟩ := hcreate
        subst hs
        obtain ⟨-, hfresh, hs2⟩ := Store.insert_ok _ _ _ s s2 k hins
        refine ⟨k, hresp.symm, ?_, ?_⟩
        · intro c1 hk
          simp only [GetProduct, tableGateway, hk]
          rw [hs2]
          have hf := Store.fetch_appended s.rows (s.nextId + 1)
            ⟨k, p.Name, p.Price, p.Category⟩ hfresh
          simp only at hf
          rw [hf]
          rfl
        · intro j
          have hv2 : (validate { p with ID := j }).2 = none := by
            rw [validate_snd_eq_none_iff] at hv ⊢
            exact hv
          rw [CreateProduct_valid _ s _ { p with ID := j } rfl hv2]
          simp only
          rw [hins1]
          simp only
          rw [← hresp]

/-- Witness of C4: `POST /products` with a widget whose body claims id 42, on
the empty table; the assigned id is 1 and `GET /products/1` returns the
widget with id 1. -/
theorem create_then_get_witness :
    CreateProduct (tableGateway decimalKey) ⟨"", some ⟨42, "Widget", 10, "Tools"⟩⟩ Store.empty
      = (.ok ⟨201, .json ⟨1, "Widget", 10, "Tools"⟩⟩, sampleStore) ∧
    ∃ k : Int,
      (⟨201, .json ⟨1, "Widget", 10, "Tools"⟩⟩ : Response)
        = ⟨201, .json ⟨k, "Widget", 10, "Tools"⟩⟩ ∧
      (∀ c1 : Ctx, decimalKey c1.ParamsId = some k →
        GetProduct (tableGateway decimalKey) c1 sampleStore
          = (.ok ⟨200, .json ⟨k, "Widget", 10, "Tools"⟩⟩, sampleStore)) ∧
      (∀ j : Int,
        CreateProduct (tableGateway decimalKey) ⟨"", some ⟨j, "Widget", 10, "Tools"⟩⟩
          Store.empty = (.ok ⟨201, .json ⟨1, "Widget", 10, "Tools"⟩⟩, sampleStore)) :=
  ⟨by decide,
   create_then_get decimalKey Store.empty sampleStore ⟨"", some ⟨42, "Widget", 10, "Tools"⟩⟩
    ⟨42, "Widget", 10, "Tools"⟩ ⟨201, .json ⟨1, "Widget", 10, "Tools"⟩⟩ rfl (by decide)⟩

/-- C5: on the table, when a row with id `k` exists, `DeleteProduct` on a
route parameter the store reads as `k` answers 204 with an empty body; a
second `DeleteProduct` for `k` on the resulting table returns the error with
status 404 and message "Product not found", and so does `GetProduct` for `k`. -/
theorem delete_then_not_found (keyOf : String → Option Int) (s : Store) (k : Int)
    (c1 c2 c3 : Ctx) (h1 : keyOf c1.ParamsId = some k) (h2 : keyOf c2.ParamsId = some k)
    (h3 : keyOf c3.ParamsId = some k) (hrow : ∃ r ∈ s.rows, r.ID = k) :
    (DeleteProduct (tableGateway keyOf) c1 s).1 = .ok ⟨204, .empty⟩ ∧
    (DeleteProduct (tableGateway keyOf) c2 (DeleteProduct (tableGateway keyOf) c1 s).2).1
      = .error ⟨404, "Product not found"⟩ ∧
    (GetProduct (tableGateway keyOf) c3 (DeleteProduct (tableGateway keyOf) c1 s).2).1
      = .error ⟨404, "Product not found"⟩ := by
  have hfirst : DeleteProduct (tableGateway keyOf) c1 s
      = (.ok ⟨204, .empty⟩, (Store.delete k s).2) := by
    simp only [DeleteProduct, tableGateway, h1, Store.delete]
    rw [if_neg (Store.count_present k s.rows hrow)]
    rfl
  have hgone := Store.delete_rows_absent k s
  rw [hfirst]
  refine ⟨rfl, ?_, ?_⟩
  · simp only [DeleteProduct, tableGateway, h2]
    rw [Store.delete_absent k _ hgone]
    rfl
  · simp only [GetProduct, tableGateway, h3]
    rw [Store.fetch_absent k _ hgone]
    rfl

/-- Witness of C5: `DELETE /products/1` twice and `GET /products/1` on the
table that holds row 1. -/
theorem delete_then_not_found_witness :
    (DeleteProduct (tableGateway decimalKey) ⟨"1", none⟩ sampleStore).1
      = .ok ⟨204, .empty⟩ ∧
    (DeleteProduct (tableGateway decimalKey) ⟨"1", none⟩
      (DeleteProduct (tableGateway decimalKey) ⟨"1", none⟩ sampleStore).2).1
      = .error ⟨404, "Product not found"⟩ ∧
    (GetProduct (tableGateway decimalKey) ⟨"1", none⟩
      (DeleteProduct (tableGateway decimalKey) ⟨"1", none⟩ sampleStore).2).1
      = .error ⟨404, "Product not found"⟩ :=
  delete_then_not_found decimalKey sampleStore 1 ⟨"1", none⟩ ⟨"1", none⟩ ⟨"1", none⟩
    (by decide) (by decide) (by decide) (by decide)

/-- C6: on the table, when the route parameter is read as an id `k` that no
row carries and the parsed body passes validation, `UpdateProduct` returns the
error with status 404 and message "Product not found", and the table after the
call equals the table before it. -/
theorem update_missing_row (keyOf : String → Option Int) (s : Store) (c : Ctx) (k : Int)
    (p : Product) (hk : keyOf c.ParamsId = some k) (hno : ∀ r ∈ s.rows, r.ID ≠ k)
    (hbody : c.Body = some p) (hv : (validate p).2 = none) :
    UpdateProduct (tableGateway keyOf) c s = (.error ⟨404, "Product not found"⟩, s) := by
  rw [UpdateProduct_valid _ s c p hbody hv]
  simp only [tableGateway, hk]
  rw [Store.update_absent _ _ _ k s hno]
  rfl

/-- Witness of C6: `PUT /products/999` with a valid body on the table that
holds only row 1. -/
theorem update_missing_row_witness :
    UpdateProduct (tableGateway decimalKey) ⟨"999", some ⟨0, "Gadget", 25, "Toys"⟩⟩ sampleStore
      = (.error ⟨404, "Product not found"⟩, sampleStore) :=
  update_missing_row decimalKey sampleStore ⟨"999", some ⟨0, "Gadget", 25, "Toys"⟩⟩ 999
    ⟨0, "Gadget", 25, "Toys"⟩ (by decide) (by decide) rfl (by decide)

/-- C10: on the table, if every row has a non-empty name, a positive price
and a non-empty category, the same is true after `CreateProduct`,
`GetProduct`, `UpdateProduct` or `DeleteProduct` with any request (any route
parameter, any body, parsed or not); hence it is true after any sequence of
requests, and in particular in every table reached from the empty one. -/
theorem invariant_preserved (keyOf : String → Option Int) (s : Store) (h : StoreValid s) :
    (∀ c : Ctx, StoreValid (CreateProduct (tableGateway keyOf) c s).2) ∧
    (∀ c : Ctx, StoreValid (GetProduct (tableGateway keyOf) c s).2) ∧
    (∀ c : Ctx, StoreValid (UpdateProduct (tableGateway keyOf) c s).2) ∧
    (∀ c : Ctx, StoreValid (DeleteProduct (tableGateway keyOf) c s).2) ∧
    (∀ reqs : List Request, StoreValid (serveAll (tableGateway keyOf) reqs s)) ∧
    (∀ reqs : List Request, StoreValid (serveAll (tableGateway keyOf) reqs Store.empty)) :=
  ⟨fun c => CreateProduct_preserves keyOf s c h,
   fun c => by rw [GetProduct_state]; exact h,
   fun c => UpdateProduct_preserves keyOf s c h,
   fun c => DeleteProduct_preserves keyOf s c h,
   fun reqs => serveAll_preserves keyOf reqs s h,
   fun reqs => serveAll_preserves keyOf reqs Store.empty StoreValid_empty⟩

/-- Witness of C10: the table holding the widget is valid, and stays valid
after a valid and an invalid `PUT`, an invalid `POST`, a `GET` and a `DELETE`. -/
theorem invariant_preserved_witness :
    StoreValid sampleStore ∧
    StoreValid (serveAll (tableGateway decimalKey)
      [.put ⟨"1", some ⟨0, "Gadget", 25, "Toys"⟩⟩, .put ⟨"1", some ⟨0, "", 5, "Tools"⟩⟩,
       .post ⟨"", some ⟨0, "Widget", 0, "Tools"⟩⟩, .get ⟨"1", none⟩, .delete ⟨"1", none⟩]
      sampleStore) :=
  ⟨by decide, (invariant_preserved decimalKey sampleStore (by decide)).2.2.2.2.1 _⟩

end ProductService
